import Mathlib

/-!
Verification development for the InfraLLM translation-and-validation
pipeline.  The Python sources are embedded shallowly: Python values
(`Dict[str, Any]` and friends) become the inductive `PyVal`, Python string
operations become executable functions over the underlying character
lists, raising code becomes `Except`, and the background worker's store
updates become an explicit list of update records.  External
collaborators (the completion API, GitHub, the template files on disk,
the policy file) are parameters of the embedded functions.
-/

namespace InfraLLM

/-- A Python value, as the validators and the generator consume them. -/
inductive PyVal where
  | none
  | bool (b : Bool)
  | int (n : Int)
  | str (s : String)
  | list (xs : List PyVal)
  | dict (entries : List (String × PyVal))

/-- Python `s.startswith(p)`. -/
def pyStartsWith (s p : String) : Bool := p.data.isPrefixOf s.data

/-- Helper for `pySplitChar`: accumulate the current segment (reversed). -/
def splitCharAux (c : Char) : List Char → List Char → List (List Char)
  | [], acc => [acc.reverse]
  | a :: l, acc =>
      if a = c then acc.reverse :: splitCharAux c l []
      else splitCharAux c l (a :: acc)

/-- Python `s.split(sep)` for a one-character separator (the sources only
split on `"-"` and `"\n"`). -/
def pySplitChar (c : Char) (s : String) : List String :=
  (splitCharAux c s.data []).map (fun l => ⟨l⟩)

/-- Helper for `pyReplace`: the fuel bounds the number of characters still
to be scanned, so `l.length` fuel always suffices. -/
def replaceFuel (old new : List Char) : Nat → List Char → List Char
  | _, [] => []
  | 0, l => l
  | Nat.succ fuel, a :: l =>
      if old.isPrefixOf (a :: l) then
        new ++ replaceFuel old new fuel (List.drop (old.length - 1) l)
      else
        a :: replaceFuel old new fuel l

/-- Python `s.replace(old, new)` for a non-empty `old` (the sources never
replace an empty substring). -/
def pyReplace (s old new : String) : String :=
  if old.data.isEmpty then s
  else ⟨replaceFuel old.data new.data s.data.length s.data⟩

/-- The characters Python `str.strip()` removes. -/
def pyIsSpace (c : Char) : Bool :=
  c = ' ' ∨ c = '\t' ∨ c = '\n' ∨ c = '\x0b' ∨ c = '\x0c' ∨ c = '\r'

/-- Python `s.strip()`. -/
def pyStrip (s : String) : String :=
  ⟨((s.data.dropWhile pyIsSpace).reverse.dropWhile pyIsSpace).reverse⟩

/-- ASCII lower-casing of one character (the engine names and resource
types the code lower-cases are ASCII). -/
def pyLowerChar (c : Char) : Char :=
  if 'A' ≤ c ∧ c ≤ 'Z' then Char.ofNat (c.toNat + 32) else c

/-- Python `s.lower()`. -/
def pyLowerStr (s : String) : String := ⟨s.data.map pyLowerChar⟩

/-- Helper for `pyJoinStrs`. -/
def pyJoinChars (sep : String) : List String → List Char
  | [] => []
  | [x] => x.data
  | x :: xs => x.data ++ sep.data ++ pyJoinChars sep xs

/-- Python `sep.join(xs)` for a list of strings. -/
def pyJoinStrs (sep : String) (xs : List String) : String := ⟨pyJoinChars sep xs⟩

/-- Python truthiness (`bool(v)`). -/
def PyVal.truthy : PyVal → Bool
  | .none => false
  | .bool b => b
  | .int n => n != 0
  | .str s => !(s == "")
  | .list xs => !xs.isEmpty
  | .dict entries => !entries.isEmpty

/-- Python `==` on scalar values.  The embedded code only compares scalars
(engine strings, encryption names, resource types); container equality is
not needed and yields `false` here. -/
def pyPrimEq : PyVal → PyVal → Bool
  | .none, .none => true
  | .bool a, .bool b => a == b
  | .bool a, .int b => (if a then (1 : Int) else 0) == b
  | .int a, .bool b => a == (if b then (1 : Int) else 0)
  | .int a, .int b => a == b
  | .str a, .str b => a == b
  | _, _ => false

/-- Python `v in xs` for a list `xs`. -/
def pyInMem (v : PyVal) : PyVal → Bool
  | .list xs => xs.any (fun x => pyPrimEq x v)
  | _ => false

/-- Python `d.get(k)` on a string-keyed dict (association list, first
binding wins; the embedded dicts are built without duplicate keys). -/
def dictGet (d : List (String × PyVal)) (k : String) : Option PyVal :=
  (d.find? (fun e => e.1 == k)).map (fun e => e.2)

/-- Python `d.get(k, dflt)`. -/
def dictGetD (d : List (String × PyVal)) (k : String) (dflt : PyVal) : PyVal :=
  (dictGet d k).getD dflt

/-- Python `k in d`. -/
def dictContains (d : List (String × PyVal)) (k : String) : Bool :=
  (dictGet d k).isSome

/-- Python `d[k] = v`: overwrite the binding if present, else append. -/
def dictSet (d : List (String × PyVal)) (k : String) (v : PyVal) : List (String × PyVal) :=
  if dictContains d k then d.map (fun e => if e.1 == k then (k, v) else e)
  else d ++ [(k, v)]

/-- Python `v.get(k)` where `v` is expected to be a dict. -/
def pyGet : PyVal → String → Option PyVal
  | .dict d, k => dictGet d k
  | _, _ => Option.none

/-- Python `v.get(k, dflt)` where `v` is expected to be a dict. -/
def pyGetD (v : PyVal) (k : String) (dflt : PyVal) : PyVal :=
  (pyGet v k).getD dflt

/-- Python `k in v` where `v` is expected to be a dict. -/
def pyContains (v : PyVal) (k : String) : Bool :=
  (pyGet v k).isSome

/-- View a value as a list (the embedded code iterates it only when it is
one). -/
def pyAsList : PyVal → List PyVal
  | .list xs => xs
  | _ => []

/-- View a value as a dict. -/
def pyAsDict : PyVal → List (String × PyVal)
  | .dict d => d
  | _ => []

/-- View a value as a string. -/
def pyAsStr : PyVal → String
  | .str s => s
  | _ => ""

/-- Python `int(v)` for the int/bool values the code sums and compares. -/
def pyAsInt : PyVal → Int
  | .int n => n
  | .bool b => if b then 1 else 0
  | _ => 0

/-- The numeric content of a value, when it has one (Python bools are
ints). -/
def pyToIntVal : PyVal → Option Int
  | .int n => some n
  | .bool b => some (if b then 1 else 0)
  | _ => Option.none

/-- Python `a < b` on the numeric values the code compares. -/
def pyLt (a b : PyVal) : Bool :=
  match pyToIntVal a, pyToIntVal b with
  | some x, some y => decide (x < y)
  | _, _ => false

/-- Python `a > b` on the numeric values the code compares. -/
def pyGt (a b : PyVal) : Bool :=
  match pyToIntVal a, pyToIntVal b with
  | some x, some y => decide (y < x)
  | _, _ => false

/-- Python `v.lower()`: the code calls it on string values. -/
def pyLower : PyVal → PyVal
  | .str s => .str (pyLowerStr s)
  | v => v

/-- Is the value a Python list (`isinstance(v, list)`)? -/
def pyIsList : PyVal → Bool
  | .list _ => true
  | _ => false

/-- How an f-string formats a scalar value.  The messages the development
reasons about only interpolate strings, ints and bools; container reprs
are not modelled. -/
def pyFormat : PyVal → String
  | .none => "None"
  | .bool b => if b then "True" else "False"
  | .int n => toString n
  | .str s => s
  | .list _ => ""
  | .dict _ => ""

/-- Python `sep.join(v)` where `v` is expected to be a list of strings. -/
def pyJoinVal (sep : String) : PyVal → String
  | .list xs => pyJoinStrs sep (xs.map pyFormat)
  | _ => ""

/-! ## src/llm/validator.py -/

/-- `validate_naming_pattern` from src/llm/validator.py. -/
def validate_naming_pattern (resource_name pattern environment resource_type : String) :
    Option String :=
  if !pyStartsWith resource_name (environment ++ "-") then
    some ("Naming violation: Resource name must start with environment '" ++ environment
      ++ "', got '" ++ resource_name ++ "'")
  else
    let parts := pySplitChar '-' resource_name
    if parts.length < 3 then
      some ("Naming violation: Expected format '" ++ pattern
        ++ "' with at least 3 parts (environment-application-resource), got '"
        ++ resource_name ++ "' with " ++ toString parts.length ++ " parts")
    else Option.none

/-- One tag lookup, as `tags[required_tag]` reads it. -/
def tagLookup (tags : List (String × String)) (k : String) : Option String :=
  (tags.find? (fun e => e.1 == k)).map (fun e => e.2)

/-- `validate_required_tags` from src/llm/validator.py: the loop body for
each required tag, accumulated in order. -/
def validate_required_tags (tags : List (String × String)) : List String → List String
  | [] => []
  | required_tag :: rest =>
      (match tagLookup tags required_tag with
       | Option.none => ["Missing required tag: " ++ required_tag]
       | some v =>
           if v == "" || pyStrip v == "" then
             ["Required tag '" ++ required_tag ++ "' cannot be empty"]
           else []) ++ validate_required_tags tags rest

/-- The engine clause of `validate_rds_constraints`. -/
def rds_engine_violations (parameters : List (String × PyVal)) (rds_policies : PyVal) :
    List String :=
  let allowed_engines := pyGetD rds_policies "allowed_engines"
    (.list [.str "postgres", .str "mysql"])
  let engine := pyLower (dictGetD parameters "engine" (.str ""))
  if !pyInMem engine allowed_engines then
    ["RDS: Engine '" ++ pyFormat engine ++ "' not allowed. Allowed engines: "
      ++ pyJoinVal ", " allowed_engines]
  else []

/-- The backup-retention violation message of `validate_rds_constraints`. -/
def rds_backup_message (backup_retention min_backup_days : PyVal) : String :=
  "RDS: Backup retention period (" ++ pyFormat backup_retention
    ++ " days) is less than required minimum (" ++ pyFormat min_backup_days ++ " days)"

/-- The backup-retention clause of `validate_rds_constraints`. -/
def rds_backup_violations (parameters : List (String × PyVal)) (rds_policies : PyVal) :
    List String :=
  let min_backup_days := pyGetD rds_policies "min_backup_days" (.int 7)
  let backup_retention := dictGetD parameters "backup_retention_period" (.int 0)
  if pyLt backup_retention min_backup_days then
    [rds_backup_message backup_retention min_backup_days]
  else []

/-- The encryption clause of `validate_rds_constraints`. -/
def rds_encryption_violations (parameters : List (String × PyVal)) (rds_policies : PyVal) :
    List String :=
  if (pyGetD rds_policies "encryption" (.bool true)).truthy then
    if (dictGetD parameters "storage_encrypted" (.bool false)).truthy then []
    else ["RDS: Storage encryption is required by organizational policy"]
  else []

/-- `validate_rds_constraints` from src/llm/validator.py: the three clauses
accumulated in source order. -/
def validate_rds_constraints (parameters policies : List (String × PyVal)) : List String :=
  let rds_policies := dictGetD policies "rds" (.dict [])
  rds_engine_violations parameters rds_policies
    ++ rds_backup_violations parameters rds_policies
    ++ rds_encryption_violations parameters rds_policies

/-- `validate_s3_constraints` from src/llm/validator.py. -/
def validate_s3_constraints (parameters policies : List (String × PyVal)) : List String :=
  let s3_policies := dictGetD policies "s3" (.dict [])
  let versioning_violations :=
    if (pyGetD s3_policies "versioning" (.bool true)).truthy then
      if (dictGetD parameters "versioning" (.bool false)).truthy then []
      else ["S3: Versioning is required by organizational policy"]
    else []
  let required_encryption := pyGetD s3_policies "encryption" (.str "AES256")
  let encryption := dictGetD parameters "encryption" (.str "")
  let encryption_violations :=
    if !pyPrimEq encryption required_encryption then
      ["S3: Encryption must be '" ++ pyFormat required_encryption ++ "', got '"
        ++ pyFormat encryption ++ "'"]
    else []
  versioning_violations ++ encryption_violations

/-- `validate_eks_constraints` from src/llm/validator.py. -/
def validate_eks_constraints (parameters policies : List (String × PyVal)) : List String :=
  let eks_policies := dictGetD policies "eks" (.dict [])
  let min_nodes := pyGetD eks_policies "min_nodes" (.int 2)
  let node_groups := pyAsList (dictGetD parameters "node_groups" (.list []))
  let total_nodes : Int :=
    (node_groups.map (fun ng => pyAsInt (pyGetD ng "desired_size" (.int 0)))).sum
  let node_violations :=
    if pyLt (.int total_nodes) min_nodes then
      ["EKS: Total desired nodes (" ++ toString total_nodes
        ++ ") is less than required minimum (" ++ pyFormat min_nodes ++ " nodes)"]
    else []
  let endpoint_violations :=
    if (pyGetD eks_policies "private_endpoint" (.bool true)).truthy then
      if (dictGetD parameters "private_endpoint" (.bool false)).truthy then []
      else ["EKS: Private endpoint is required by organizational policy"]
    else []
  node_violations ++ endpoint_violations

/-- `InfrastructureRequest` from src/llm/models.py, with the fields the
validators read. -/
structure InfrastructureRequest where
  resource_type : String
  resource_name : String
  parameters : List (String × PyVal)
  environment : String
  tags : List (String × String)

/-- `policies.get("naming", {}).get("pattern", "")` as `validate_request`
reads it. -/
def naming_pattern_of (policies : List (String × PyVal)) : String :=
  pyAsStr (pyGetD (dictGetD policies "naming" (.dict [])) "pattern" (.str ""))

/-- `policies.get("tags", {}).get("required", [])` as `validate_request`
reads it. -/
def required_tags_of (policies : List (String × PyVal)) : List String :=
  (pyAsList (pyGetD (dictGetD policies "tags" (.dict [])) "required" (.list []))).map pyAsStr

/-- The naming clause of `validate_request` (zero or one violation). -/
def naming_violations (request : InfrastructureRequest) (policies : List (String × PyVal)) :
    List String :=
  match validate_naming_pattern request.resource_name (naming_pattern_of policies)
      request.environment request.resource_type with
  | some e => [e]
  | Option.none => []

/-- The resource-type dispatch of `validate_request`. -/
def resource_specific_violations (request : InfrastructureRequest)
    (resource_policies : List (String × PyVal)) : List String :=
  if request.resource_type == "rds" then
    validate_rds_constraints request.parameters resource_policies
  else if request.resource_type == "s3" then
    validate_s3_constraints request.parameters resource_policies
  else if request.resource_type == "eks" then
    validate_eks_constraints request.parameters resource_policies
  else []

/-- `validate_request` from src/llm/validator.py: naming, then tags, then
resource-specific checks, all accumulated. -/
def validate_request (request : InfrastructureRequest) (policies : List (String × PyVal)) :
    List String :=
  naming_violations request policies
    ++ validate_required_tags request.tags (required_tags_of policies)
    ++ resource_specific_violations request (pyAsDict (dictGetD policies "resources" (.dict [])))

/-! ## src/terraform/validator.py -/

/-- `validate_s3_parameters` from src/terraform/validator.py. -/
def validate_s3_parameters (params : List (String × PyVal)) : List String :=
  let missing := ((["versioning", "encryption", "public_access_block"] : List String).filter
      (fun f => !dictContains params f)).map (fun f => "Missing required S3 parameter: " ++ f)
  let encryption_errors :=
    if dictContains params "encryption" then
      if !pyInMem (dictGetD params "encryption" PyVal.none)
          (.list [.str "AES256", .str "aws:kms"]) then
        ["S3 encryption must be one of ['AES256', 'aws:kms'], got '"
          ++ pyFormat (dictGetD params "encryption" PyVal.none) ++ "'"]
      else []
    else []
  missing ++ encryption_errors

/-- The per-node-group required fields of `validate_eks_parameters`. -/
def node_group_field_list : List String :=
  ["name", "instance_types", "desired_size", "min_size", "max_size"]

/-- The per-node-group loop body of `validate_eks_parameters`: missing
fields, then the scaling checks, then the `instance_types` type check. -/
def validate_node_group (i : Nat) (ng : PyVal) : List String :=
  let label := "Node group " ++ toString i ++ " ('"
    ++ pyFormat (pyGetD ng "name" (.str "unnamed")) ++ "'): "
  let missing := (node_group_field_list.filter (fun f => !pyContains ng f)).map
    (fun f => label ++ "missing required field '" ++ f ++ "'")
  let scaling :=
    if pyContains ng "desired_size" && pyContains ng "min_size" && pyContains ng "max_size" then
      (if pyLt (pyGetD ng "desired_size" PyVal.none) (pyGetD ng "min_size" PyVal.none) then
        [label ++ "desired_size (" ++ pyFormat (pyGetD ng "desired_size" PyVal.none)
          ++ ") cannot be less than min_size ("
          ++ pyFormat (pyGetD ng "min_size" PyVal.none) ++ ")"]
      else []) ++
      (if pyGt (pyGetD ng "desired_size" PyVal.none) (pyGetD ng "max_size" PyVal.none) then
        [label ++ "desired_size (" ++ pyFormat (pyGetD ng "desired_size" PyVal.none)
          ++ ") cannot be greater than max_size ("
          ++ pyFormat (pyGetD ng "max_size" PyVal.none) ++ ")"]
      else [])
    else []
  let type_errors :=
    if pyContains ng "instance_types" && !pyIsList (pyGetD ng "instance_types" PyVal.none) then
      [label ++ "instance_types must be a list"]
    else []
  missing ++ scaling ++ type_errors

/-- The `enumerate(params['node_groups'])` loop of
`validate_eks_parameters`. -/
def node_group_errors : Nat → List PyVal → List String
  | _, [] => []
  | i, ng :: rest => validate_node_group i ng ++ node_group_errors (i + 1) rest

/-- `validate_eks_parameters` from src/terraform/validator.py. -/
def validate_eks_parameters (params : List (String × PyVal)) : List String :=
  let version_errors :=
    if !dictContains params "kubernetes_version" then
      ["Missing required EKS parameter: kubernetes_version"]
    else []
  let group_errors :=
    if !dictContains params "node_groups"
        || !(dictGetD params "node_groups" PyVal.none).truthy then
      ["EKS requires at least one node group"]
    else node_group_errors 0 (pyAsList (dictGetD params "node_groups" PyVal.none))
  let endpoint_errors :=
    if !dictContains params "private_endpoint" then
      ["Missing required EKS parameter: private_endpoint"]
    else []
  version_errors ++ group_errors ++ endpoint_errors

/-- `validate_rds_parameters` from src/terraform/validator.py. -/
def validate_rds_parameters (params : List (String × PyVal)) : List String :=
  ((["engine", "engine_version", "instance_class", "allocated_storage",
     "backup_retention_period", "storage_encrypted"] : List String).filter
    (fun f => !dictContains params f)).map (fun f => "Missing required RDS parameter: " ++ f)

/-- `validate_vpc_parameters` from src/terraform/validator.py. -/
def validate_vpc_parameters (params : List (String × PyVal)) : List String :=
  ((["cidr_block", "enable_dns_hostnames", "enable_dns_support"] : List String).filter
    (fun f => !dictContains params f)).map (fun f => "Missing required VPC parameter: " ++ f)

/-! ## src/terraform/models.py -/

/-- `GeneratedTerraform` from src/terraform/models.py; `files` keeps the
insertion order of the Python dict. -/
structure GeneratedTerraform where
  resource_type : String
  resource_name : String
  environment : String
  files : List (String × String)
  metadata : List (String × PyVal)

/-- `GeneratedTerraform.get_directory_name` from src/terraform/models.py. -/
def GeneratedTerraform.get_directory_name (t : GeneratedTerraform) : String :=
  "terraform/" ++ t.environment ++ "/" ++ t.resource_type ++ "/" ++ t.resource_name

/-! ## src/terraform/generator.py -/

/-- The template directory as `TerraformGenerator` sees it: which template
paths (relative to the directory) exist, and what rendering a template
against a context produces.  Rendering is total here: Jinja2 itself is an
external collaborator. -/
structure TemplateStore where
  templatesDir : String
  hasTemplate : String → Bool
  render : String → List (String × PyVal) → String

/-- The resource-specific template files `_load_templates` requires. -/
def resource_template_files : List String := ["main.tf.j2", "variables.tf.j2", "outputs.tf.j2"]

/-- The common template files `_load_templates` requires. -/
def common_template_files : List String := ["provider.tf.j2", "backend.tf.j2"]

/-- The required top-level keys `generate` checks first. -/
def generator_required_fields : List String :=
  ["resource_type", "resource_name", "parameters", "environment", "tags"]

/-- The supported resource types of `generate`. -/
def supported_resource_types : List String := ["s3", "eks", "rds", "vpc"]

/-- `TerraformGenerator._load_templates`: output filename (the `.j2`
suffix stripped) paired with the template name it is rendered from;
the first missing template aborts with the `FileNotFoundError` message. -/
def load_templates (store : TemplateStore) (resource_type : String) :
    Except String (List (String × String)) :=
  match resource_template_files.find? (fun f => !store.hasTemplate (resource_type ++ "/" ++ f)) with
  | some f => .error ("Required template not found: " ++ store.templatesDir ++ "/"
      ++ resource_type ++ "/" ++ f)
  | Option.none =>
    match common_template_files.find? (fun f => !store.hasTemplate ("_common/" ++ f)) with
    | some f => .error ("Required common template not found: " ++ store.templatesDir
        ++ "/_common/" ++ f)
    | Option.none =>
      .ok (resource_template_files.map (fun f => (pyReplace f ".j2" "", resource_type ++ "/" ++ f))
        ++ common_template_files.map (fun f => (pyReplace f ".j2" "", "_common/" ++ f)))

/-- The per-resource-type dispatch of `generate` (step 3). -/
def parameter_validation_func (resource_type : String) (params : List (String × PyVal)) :
    List String :=
  if resource_type == "s3" then validate_s3_parameters params
  else if resource_type == "eks" then validate_eks_parameters params
  else if resource_type == "rds" then validate_rds_parameters params
  else if resource_type == "vpc" then validate_vpc_parameters params
  else []

/-- `TerraformGenerator._prepare_context`: the organization name comes from
`load_policies()` (`Option.none` models the load raising, taking the
fallback branch), `now` is the `datetime.utcnow().isoformat()` timestamp.
The `resource_name` and `resource_type` indexings are total here because
`generate` validates their presence first. -/
def prepare_context (org_policies : Option (List (String × PyVal))) (now : String)
    (requirements : List (String × PyVal)) : List (String × PyVal) :=
  let context :=
    match org_policies with
    | some policies =>
        let org_name := pyAsStr (pyGetD (dictGetD policies "organization" (.dict []))
          "name" (.str "your-organization"))
        dictSet requirements "organization" (.str (pyReplace (pyLowerStr org_name) " " "-"))
    | Option.none => dictSet requirements "organization" (.str "your-organization")
  let needs_vpc := pyInMem (dictGetD requirements "resource_type" PyVal.none)
    (.list [.str "eks", .str "rds"])
  let context := dictSet context "needs_vpc" (.bool needs_vpc)
  let context := dictSet context "generated_at" (.str now)
  let context := dictSet context "tf_resource_name"
    (.str (pyReplace (pyAsStr (dictGetD requirements "resource_name" (.str ""))) "-" "_"))
  context

/-- `TerraformGenerator.generate` from src/terraform/generator.py:
field check, supported-type check, parameter validation, template
loading, context preparation, rendering, and the `GeneratedTerraform`
result; every raise becomes `Except.error` with the raised message. -/
def generate (store : TemplateStore) (org_policies : Option (List (String × PyVal)))
    (now : String) (requirements : List (String × PyVal)) : Except String GeneratedTerraform :=
  match generator_required_fields.find? (fun f => !dictContains requirements f) with
  | some f => .error ("Missing required field '" ++ f ++ "' in requirements")
  | Option.none =>
    let resource_type := dictGetD requirements "resource_type" PyVal.none
    if !pyInMem resource_type (.list (supported_resource_types.map PyVal.str)) then
      .error ("Unsupported resource type '" ++ pyFormat resource_type
        ++ "'. Supported types: " ++ pyJoinStrs ", " supported_resource_types)
    else
      let rt := pyAsStr resource_type
      let param_errors := parameter_validation_func rt
        (pyAsDict (dictGetD requirements "parameters" (.dict [])))
      if !param_errors.isEmpty then
        .error ("Invalid parameters for " ++ rt ++ ":\n"
          ++ pyJoinStrs "\n" (param_errors.map (fun e => "  - " ++ e)))
      else
        match load_templates store rt with
        | .error e => .error ("Templates not found for resource type '" ++ rt ++ "': " ++ e
            ++ "\nExpected templates in: " ++ store.templatesDir ++ "/" ++ rt)
        | .ok templates =>
          let context := prepare_context org_policies now requirements
          let files := templates.map (fun t => (t.1, store.render t.2 context))
          .ok { resource_type := rt,
                resource_name := pyAsStr (dictGetD requirements "resource_name" (.str "")),
                environment := pyAsStr (dictGetD requirements "environment" (.str "")),
                files := files,
                metadata := [("timestamp", .str now), ("policy_version", .str "1.0"),
                  ("generator_version", .str "0.1.0"), ("template_dir", .str store.templatesDir)] }

/-! ## infrallm_api/models/requests.py and infrallm_api/worker.py -/

/-- `RequestStatus` from infrallm_api/models/requests.py. -/
inductive RequestStatus where
  | queued
  | parsing
  | generating
  | creating_pr
  | completed
  | failed
deriving DecidableEq

/-- The exception kinds `process_provision_request` can see: the typed
InfraLLM exceptions, the GitHub client's error, and `unexpected` for any
other Python exception raised during a phase. -/
inductive WorkerExn where
  | configuration_error (msg : String)
  | policy_validation_error (violations : List String)
  | parsing_error (msg : String)
  | terraform_generation_error (msg : String)
  | github_error (msg : String)
  | unexpected (msg : String)

/-- Python `str(e)` for each exception kind (`ValidationError.__init__`
builds its message from the violation count). -/
def WorkerExn.strOf : WorkerExn → String
  | .configuration_error m => m
  | .policy_validation_error vs =>
      "Policy validation failed: " ++ toString vs.length ++ " violation"
        ++ (if vs.length == 1 then "" else "s")
  | .parsing_error m => m
  | .terraform_generation_error m => m
  | .github_error m => m
  | .unexpected m => m

/-- `isinstance(e, ConfigurationError)`. -/
def WorkerExn.is_configuration_error : WorkerExn → Bool
  | .configuration_error _ => true
  | _ => false

/-- `isinstance(e, ValidationError)`. -/
def WorkerExn.is_policy_validation_error : WorkerExn → Bool
  | .policy_validation_error _ => true
  | _ => false

/-- `isinstance(e, ParsingError)`. -/
def WorkerExn.is_parsing_error : WorkerExn → Bool
  | .parsing_error _ => true
  | _ => false

/-- `isinstance(e, TerraformGenerationError)`. -/
def WorkerExn.is_terraform_generation_error : WorkerExn → Bool
  | .terraform_generation_error _ => true
  | _ => false

/-- `isinstance(e, GitHubError)`. -/
def WorkerExn.is_github_error : WorkerExn → Bool
  | .github_error _ => true
  | _ => false

/-- `isinstance(e, Exception)`: every modelled exception is one. -/
def WorkerExn.is_exception (_e : WorkerExn) : Bool := true

/-- `"; ".join(e.violations) if hasattr(e, "violations") else str(e)`. -/
def worker_violations_str (e : WorkerExn) : String :=
  match e with
  | .policy_validation_error vs => pyJoinStrs "; " vs
  | _ => WorkerExn.strOf e

/-- The `except` clauses of `process_provision_request`, in source order:
each clause is (does it match this exception, the error string its handler
stores).  The fifth clause is `except (GitHubError, Exception)`, so it
matches every exception; the sixth (`except Exception`, storing an
"Unexpected error" message) is therefore unreachable. -/
def worker_except_clauses : List ((WorkerExn → Bool) × (WorkerExn → String)) :=
  [ (WorkerExn.is_configuration_error, fun e => "Configuration error: " ++ e.strOf),
    (WorkerExn.is_policy_validation_error,
      fun e => "Policy validation failed: " ++ worker_violations_str e),
    (WorkerExn.is_parsing_error, fun e => "Failed to parse request: " ++ e.strOf),
    (WorkerExn.is_terraform_generation_error,
      fun e => "Failed to generate Terraform: " ++ e.strOf),
    (fun e => e.is_github_error || e.is_exception, fun e => "GitHub error: " ++ e.strOf),
    (WorkerExn.is_exception, fun e => "Unexpected error: " ++ e.strOf) ]

/-- What Python's try/except stores for a raised exception: the first
matching clause's message. -/
def worker_error_message (e : WorkerExn) : String :=
  match worker_except_clauses.find? (fun c => c.1 e) with
  | some c => c.2 e
  | Option.none => ""

/-- One `request_store.update(...)` call: the fields it sets. -/
structure StoreUpdate where
  status : Option RequestStatus := Option.none
  error : Option String := Option.none
  requirements : Option (List (String × PyVal)) := Option.none
  pr_url : Option String := Option.none
  pr_number : Option Int := Option.none
  branch_name : Option String := Option.none
  completed_at_set : Bool := false

/-- The result of `GitHubClient.create_pr`. -/
structure PRResult where
  pr_url : String
  pr_number : Int
  branch_name : String

/-- The collaborators one lifecycle run invokes: Claude parsing, Terraform
generation, PR creation.  Each may raise (`Except.error`). -/
structure WorkerEnv where
  parse_result : Except WorkerExn (List (String × PyVal))
  generate_result : List (String × PyVal) → Except WorkerExn GeneratedTerraform
  pr_result : GeneratedTerraform → List (String × PyVal) → Except WorkerExn PRResult

/-- The store update every exception handler of
`process_provision_request` performs. -/
def failure_update (e : WorkerExn) : StoreUpdate :=
  { status := some RequestStatus.failed, error := some (worker_error_message e),
    completed_at_set := true }

/-- The environment override applied to parsed requirements
(`requirements["environment"] = environment` when one is provided). -/
def worker_requirements (reqs0 : List (String × PyVal)) (environment : Option String) :
    List (String × PyVal) :=
  match environment with
  | some ev => dictSet reqs0 "environment" (.str ev)
  | Option.none => reqs0

/-- The `status=PARSING` update performed before parsing. -/
def parsing_update : StoreUpdate := { status := some RequestStatus.parsing }

/-- The `status=GENERATING` update performed before generation. -/
def generating_update (requirements : List (String × PyVal)) : StoreUpdate :=
  { status := some RequestStatus.generating, requirements := some requirements }

/-- The `status=CREATING_PR` update performed before PR creation. -/
def creating_pr_update : StoreUpdate := { status := some RequestStatus.creating_pr }

/-- The `status=COMPLETED` update performed after PR creation. -/
def completed_update (pr : PRResult) : StoreUpdate :=
  { status := some RequestStatus.completed, pr_url := some pr.pr_url,
    pr_number := some pr.pr_number, branch_name := some pr.branch_name,
    completed_at_set := true }

/-- `process_provision_request` from infrallm_api/worker.py, as the list
of store updates one run performs: the status updates before each phase,
and on any raise the matching handler's failure update. -/
def process_provision_request (env : WorkerEnv) (environment : Option String) :
    List StoreUpdate :=
  match env.parse_result with
  | .error e => [parsing_update, failure_update e]
  | .ok reqs0 =>
    match env.generate_result (worker_requirements reqs0 environment) with
    | .error e => [parsing_update, generating_update (worker_requirements reqs0 environment),
        failure_update e]
    | .ok terraform =>
      match env.pr_result terraform (worker_requirements reqs0 environment) with
      | .error e => [parsing_update, generating_update (worker_requirements reqs0 environment),
          creating_pr_update, failure_update e]
      | .ok pr =>
        [parsing_update, generating_update (worker_requirements reqs0 environment),
         creating_pr_update, completed_update pr]

/-! ## src/llm/client.py -/

/-- The error kinds `ClaudeClient.parse_infrastructure_request` raises. -/
inductive LLMError where
  | configuration_error (msg : String)
  | api_error (msg : String)
  | validation_error (violations : List String)
  | parsing_error (msg : String)

/-- The external interactions the client performs, in order. -/
inductive ClientStep where
  | loaded_policies
  | called_api
deriving DecidableEq

/-- The client's external collaborators: the policy loader, the system
prompt builder, the Claude completion call, and the JSON-plus-Pydantic
interpretation of the raw response (steps 5 and 6). -/
structure ClientEnv where
  load_policies : Except String (List (String × PyVal))
  build_system_prompt : List (String × PyVal) → String
  complete : String → String → Except String String
  interpret_response : String → Except LLMError InfrastructureRequest

/-- The markdown-stripping of step 5 of
`ClaudeClient.parse_infrastructure_request`. -/
def clean_response (raw : String) : String :=
  let cleaned := pyStrip raw
  if pyStartsWith cleaned "```" then
    let lines := pySplitChar '\n' cleaned
    let lines := if pyStartsWith (lines.headD "") "```" then lines.tail else lines
    let lines :=
      match lines.getLast? with
      | some l => if pyStrip l == "```" then lines.dropLast else lines
      | Option.none => lines
    pyJoinStrs "\n" lines
  else cleaned

/-- `ClaudeClient.parse_infrastructure_request` from src/llm/client.py:
the pre-flight emptiness check, then policies, prompt, completion call,
response interpretation and policy validation, paired with the trace of
external interactions performed. -/
def parse_infrastructure_request (env : ClientEnv) (request : String) :
    Except LLMError InfrastructureRequest × List ClientStep :=
  if request == "" || pyStrip request == "" then
    (.error (.validation_error ["Infrastructure request cannot be empty"]), [])
  else
    match env.load_policies with
    | .error m => (.error (.configuration_error m), [.loaded_policies])
    | .ok policies =>
      let system_prompt := env.build_system_prompt policies
      match env.complete system_prompt request with
      | .error m => (.error (.api_error ("Failed to call Claude API: " ++ m
          ++ "\nPlease check your API key and network connection.")),
          [.loaded_policies, .called_api])
      | .ok raw_response =>
        match env.interpret_response (clean_response raw_response) with
        | .error err => (.error err, [.loaded_policies, .called_api])
        | .ok validated_request =>
          let policy_violations := validate_request validated_request policies
          if !policy_violations.isEmpty then
            (.error (.validation_error policy_violations), [.loaded_policies, .called_api])
          else
            (.ok validated_request, [.loaded_policies, .called_api])

/-! ## Spec-side predicates and concrete inputs used by the theorems -/

/-- Is the value an int? -/
def pyIsInt : PyVal → Bool
  | .int _ => true
  | _ => false

/-- An optional field that, when present, is an int. -/
def pyIsIntOpt : Option PyVal → Bool
  | some v => pyIsInt v
  | Option.none => true

/-- A required tag is missing from the tags mapping, or present with an
empty or whitespace-only value. -/
def tag_missing_or_blank (tags : List (String × String)) (rt : String) : Bool :=
  match tagLookup tags rt with
  | Option.none => true
  | some v => v == "" || pyStrip v == ""

/-- Stated from the spec's words, for comparison with
`validate_node_group`: a node group has name, instance_types (a list, not
a scalar), desired_size, min_size and max_size, with desired_size in the
closed interval [min_size, max_size]. -/
def node_group_spec_ok (ng : PyVal) : Bool :=
  node_group_field_list.all (fun f => pyContains ng f)
  && pyIsList (pyGetD ng "instance_types" PyVal.none)
  && (match pyGet ng "desired_size", pyGet ng "min_size", pyGet ng "max_size" with
      | some (.int d), some (.int mn), some (.int mx) => decide (mn ≤ d) && decide (d ≤ mx)
      | _, _, _ => false)

/-- Stated from the spec's words, for comparison with
`validate_eks_parameters`: kubernetes_version, a non-empty node_groups
list whose groups all satisfy `node_group_spec_ok`, and private_endpoint. -/
def eks_parameters_spec (params : List (String × PyVal)) : Bool :=
  dictContains params "kubernetes_version"
  && (match dictGet params "node_groups" with
      | some (PyVal.list gs) => !gs.isEmpty && gs.all node_group_spec_ok
      | _ => false)
  && dictContains params "private_endpoint"

/-- A complete managed-cluster parameter mapping whose single node group
has desired_size 5 in [3, 10]. -/
def eks_good_params : List (String × PyVal) :=
  [("kubernetes_version", .str "1.28"),
   ("node_groups", .list [.dict [("name", .str "general"),
      ("instance_types", .list [.str "t3.large"]),
      ("desired_size", .int 5), ("min_size", .int 3), ("max_size", .int 10)]]),
   ("private_endpoint", .bool true)]

/-- The same mapping with desired_size 2 below min_size 3. -/
def eks_bad_params : List (String × PyVal) :=
  [("kubernetes_version", .str "1.28"),
   ("node_groups", .list [.dict [("name", .str "general"),
      ("instance_types", .list [.str "t3.large"]),
      ("desired_size", .int 2), ("min_size", .int 3), ("max_size", .int 10)]]),
   ("private_endpoint", .bool true)]

/-- A specification with one naming violation (no "prod-" prefix) and one
missing required tag. -/
def c3_request : InfrastructureRequest :=
  { resource_type := "vpc", resource_name := "db",
    parameters := [("cidr_block", PyVal.str "10.0.0.0/16")], environment := "prod",
    tags := [("Environment", "prod")] }

/-- A ruleset requiring the Environment and Owner tags. -/
def c3_policies : List (String × PyVal) :=
  [("naming", PyVal.dict [("pattern", PyVal.str "{environment}-{application}-{resource}")]),
   ("tags", PyVal.dict [("required", PyVal.list [PyVal.str "Environment", PyVal.str "Owner"])]),
   ("security", PyVal.dict []),
   ("resources", PyVal.dict [])]

/-- A specification with a compliant name that is missing the Owner tag. -/
def c3w_request : InfrastructureRequest :=
  { resource_type := "vpc", resource_name := "prod-payments-db",
    parameters := [("cidr_block", PyVal.str "10.0.0.0/16")], environment := "prod",
    tags := [("Environment", "prod")] }

/-- Managed-database parameters whose engine differs from the allowed list
only by letter case. -/
def c6_parameters : List (String × PyVal) :=
  [("engine", PyVal.str "POSTGRES"), ("backup_retention_period", PyVal.int 7),
   ("storage_encrypted", PyVal.bool true)]

/-- A ruleset whose allowed-engines list carries an upper-case entry. -/
def c6_policies : List (String × PyVal) :=
  [("rds", PyVal.dict [("allowed_engines", PyVal.list [PyVal.str "Postgres"]),
     ("min_backup_days", PyVal.int 7), ("encryption", PyVal.bool true)])]

/-- Compliant managed-database parameters. -/
def c6w_parameters : List (String × PyVal) :=
  [("engine", PyVal.str "postgres"), ("backup_retention_period", PyVal.int 7),
   ("storage_encrypted", PyVal.bool true)]

/-- A ruleset with an empty rds section (all defaults apply). -/
def c6w_policies : List (String × PyVal) := [("rds", PyVal.dict [])]

/-- Managed-database parameters with no backup_retention_period key. -/
def c9_parameters : List (String × PyVal) :=
  [("engine", PyVal.str "postgres"), ("storage_encrypted", PyVal.bool true)]

/-- A ruleset demanding seven days of backups. -/
def c9_policies : List (String × PyVal) :=
  [("rds", PyVal.dict [("min_backup_days", PyVal.int 7)])]

/-- A concrete generated artifact set. -/
def c5_generated : GeneratedTerraform :=
  { resource_type := "eks", resource_name := "prod-api-cluster", environment := "prod",
    files := [], metadata := [] }

/-- A template store where every template exists and renders to the empty
string. -/
def full_template_store : TemplateStore :=
  { templatesDir := "templates", hasTemplate := fun _ => true, render := fun _ _ => "" }

/-- A complete storage-bucket requirements mapping. -/
def c1_requirements : List (String × PyVal) :=
  [("resource_type", PyVal.str "s3"), ("resource_name", PyVal.str "staging-logs-bucket"),
   ("parameters", PyVal.dict [("versioning", PyVal.bool true),
      ("encryption", PyVal.str "AES256"), ("public_access_block", PyVal.bool true)]),
   ("environment", PyVal.str "staging"),
   ("tags", PyVal.dict [("Environment", PyVal.str "staging")])]

/-- A minimal requirements mapping for the worker run. -/
def c4_requirements : List (String × PyVal) := [("resource_type", PyVal.str "s3")]

/-- A minimal generated artifact set for the worker run. -/
def c4_terraform : GeneratedTerraform :=
  { resource_type := "s3", resource_name := "staging-logs-bucket", environment := "staging",
    files := [], metadata := [] }

/-- A worker environment whose PR-creation phase raises an exception that
is none of the specifically handled kinds. -/
def c4_env : WorkerEnv :=
  { parse_result := Except.ok c4_requirements,
    generate_result := fun _ => Except.ok c4_terraform,
    pr_result := fun _ _ => Except.error (WorkerExn.unexpected "boom") }

/-- A client environment whose collaborators all answer trivially. -/
def client_env0 : ClientEnv :=
  { load_policies := Except.ok [],
    build_system_prompt := fun _ => "",
    complete := fun _ _ => Except.ok "",
    interpret_response := fun _ => Except.error (LLMError.parsing_error "") }

/-! ## Shared lemmas -/

lemma pyPrimEq_str_right (x : PyVal) (s : String) :
    pyPrimEq x (PyVal.str s) = true ↔ x = PyVal.str s := by
  cases x <;> simp [pyPrimEq]

lemma pyInMem_str (s : String) (xs : List PyVal) :
    pyInMem (PyVal.str s) (PyVal.list xs) = true ↔ PyVal.str s ∈ xs := by
  simp [pyInMem, List.any_eq_true, pyPrimEq_str_right]

lemma validate_required_tags_length (tags : List (String × String)) (required : List String) :
    (validate_required_tags tags required).length
      = required.countP (tag_missing_or_blank tags) := by
  induction required with
  | nil => rfl
  | cons rt rest ih =>
      unfold validate_required_tags
      cases h : tagLookup tags rt with
      | none => simp [List.countP_cons, tag_missing_or_blank, h, ih]
      | some v =>
          by_cases hb : (v == "" || pyStrip v == "") = true
          · simp [List.countP_cons, tag_missing_or_blank, h, hb, ih]
          · simp only [Bool.not_eq_true] at hb
            simp [List.countP_cons, tag_missing_or_blank, h, hb, ih]

/-! ## Claim theorems -/

/-- C2: the naming check reports a violation exactly when the resource
name lacks the `environment-` prefix or splits into fewer than three
hyphen-separated parts; `db-prod` with environment `prod` yields exactly
the environment-prefix violation, and `prod-payments-db` passes. -/
theorem naming_check_characterization
    (resource_name pattern environment resource_type : String) :
    ((validate_naming_pattern resource_name pattern environment resource_type).isSome
      = (!pyStartsWith resource_name (environment ++ "-")
          || decide ((pySplitChar '-' resource_name).length < 3)))
    ∧ validate_naming_pattern "db-prod" pattern "prod" resource_type
        = some "Naming violation: Resource name must start with environment 'prod', got 'db-prod'"
    ∧ validate_naming_pattern "prod-payments-db" pattern "prod" resource_type = Option.none := by
  refine ⟨?_, ?_, ?_⟩
  · unfold validate_naming_pattern
    cases h : pyStartsWith resource_name (environment ++ "-") <;>
      by_cases h2 : (pySplitChar '-' resource_name).length < 3 <;>
      simp [h, h2]
  · unfold validate_naming_pattern
    have h : pyStartsWith "db-prod" "prod-" = false := by decide
    simp [h]
  · unfold validate_naming_pattern
    have h : pyStartsWith "prod-payments-db" "prod-" = true := by decide
    have h2 : (pySplitChar '-' "prod-payments-db").length = 3 := by decide
    simp [h, h2]

/-- C5 counterexample: the derived directory is rooted at `terraform/`,
not `artifacts/`, for the concrete artifact set `c5_generated`. -/
theorem directory_name_counterexample :
    c5_generated.get_directory_name = "terraform/prod/eks/prod-api-cluster"
    ∧ c5_generated.get_directory_name ≠ "artifacts/prod/eks/prod-api-cluster" := by
  decide

/-- C5 (amended): every generated artifact set derives its canonical
output path as `terraform/{environment}/{resource_type}/{resource_name}`. -/
theorem directory_name_amended (g : GeneratedTerraform) :
    g.get_directory_name
      = "terraform/" ++ g.environment ++ "/" ++ g.resource_type ++ "/" ++ g.resource_name := rfl

/-- C8: validating the same (specification, ruleset) pair twice yields
identical violation lists; the embedded validator is a pure function of
its two inputs. -/
theorem validate_request_idempotent (request : InfrastructureRequest)
    (policies : List (String × PyVal)) :
    validate_request request policies = validate_request request policies := rfl

/-- C9: when the parameters carry no backup_retention_period key, the
retention is taken as 0, so a positive ruleset minimum always produces
the backup-retention violation (displayed with 0 days). -/
theorem rds_missing_backup_retention_flagged
    (parameters policies : List (String × PyVal)) (mb : Int)
    (h0 : dictGet parameters "backup_retention_period" = Option.none)
    (h1 : pyGetD (dictGetD policies "rds" (PyVal.dict [])) "min_backup_days" (PyVal.int 7)
        = PyVal.int mb)
    (h2 : 0 < mb) :
    rds_backup_violations parameters (dictGetD policies "rds" (PyVal.dict []))
        = [rds_backup_message (PyVal.int 0) (PyVal.int mb)]
    ∧ rds_backup_message (PyVal.int 0) (PyVal.int mb)
        ∈ validate_rds_constraints parameters policies := by
  have hb : dictGetD parameters "backup_retention_period" (PyVal.int 0) = PyVal.int 0 := by
    unfold dictGetD
    rw [h0]
    rfl
  have hbv : rds_backup_violations parameters (dictGetD policies "rds" (PyVal.dict []))
      = [rds_backup_message (PyVal.int 0) (PyVal.int mb)] := by
    unfold rds_backup_violations
    rw [h1, hb]
    simp [pyLt, pyToIntVal, h2]
  refine ⟨hbv, ?_⟩
  simp only [validate_rds_constraints]
  rw [hbv]
  simp

/-- Witness for C9 at concrete inputs. -/
theorem rds_missing_backup_retention_flagged_witness :
    rds_backup_violations c9_parameters (dictGetD c9_policies "rds" (PyVal.dict []))
        = [rds_backup_message (PyVal.int 0) (PyVal.int 7)]
    ∧ rds_backup_message (PyVal.int 0) (PyVal.int 7)
        ∈ validate_rds_constraints c9_parameters c9_policies :=
  rds_missing_backup_retention_flagged c9_parameters c9_policies 7 rfl rfl (by decide)

/-- C3 counterexample: a specification missing one required tag but also
violating the naming rule has two violations, not one, so the validator's
result length does not equal the number of missing tags. -/
theorem tag_count_counterexample :
    tag_missing_or_blank c3_request.tags "Owner" = true
    ∧ (validate_required_tags c3_request.tags (required_tags_of c3_policies)).length = 1
    ∧ (validate_request c3_request c3_policies).length = 2 := by
  decide

/-- C3 (amended): the tag check emits exactly one violation per
missing/empty required tag, and the full validator's result length equals
that count when the naming check and the resource-specific checks pass. -/
theorem tag_violations_exact (tags : List (String × String)) (required : List String)
    (request : InfrastructureRequest) (policies : List (String × PyVal))
    (hn : naming_violations request policies = [])
    (hres : resource_specific_violations request
        (pyAsDict (dictGetD policies "resources" (PyVal.dict []))) = []) :
    (validate_required_tags tags required).length = required.countP (tag_missing_or_blank tags)
    ∧ (validate_request request policies).length
        = (required_tags_of policies).countP (tag_missing_or_blank request.tags) := by
  refine ⟨validate_required_tags_length tags required, ?_⟩
  unfold validate_request
  rw [hn, hres]
  simp [validate_required_tags_length]

/-- Witness for C3 at concrete inputs. -/
theorem tag_violations_exact_witness :
    (validate_required_tags c3w_request.tags (required_tags_of c3_policies)).length
        = (required_tags_of c3_policies).countP (tag_missing_or_blank c3w_request.tags)
    ∧ (validate_request c3w_request c3_policies).length
        = (required_tags_of c3_policies).countP (tag_missing_or_blank c3w_request.tags) :=
  tag_violations_exact c3w_request.tags (required_tags_of c3_policies) c3w_request c3_policies
    (by decide) (by decide)

/-- C6 counterexample: with allowed engine `Postgres` and parameter engine
`POSTGRES` (equal up to case), the code still reports an engine
violation, because only the parameter side is lower-cased. -/
theorem rds_engine_case_counterexample :
    validate_rds_constraints c6_parameters c6_policies
        = ["RDS: Engine 'postgres' not allowed. Allowed engines: Postgres"]
    ∧ (["Postgres"].any (fun a => pyLowerStr a == pyLowerStr "POSTGRES")) = true := by
  decide

/-- C6 (amended): the engine check passes exactly when the lower-cased
engine value is literally a member of the allowed-engines list; the
backup check flags exactly the retentions below the minimum; when the
ruleset requires encryption, the encryption check flags exactly the
non-true storage_encrypted values (and is silent when encryption is not
required); and `validate_rds_constraints` is the concatenation of the
three checks. -/
theorem rds_constraints_characterization
    (parameters policies : List (String × PyVal)) (e : String) (engines : List PyVal)
    (br mb : Int)
    (h1 : dictGetD parameters "engine" (PyVal.str "") = PyVal.str e)
    (h2 : pyGetD (dictGetD policies "rds" (PyVal.dict [])) "allowed_engines"
        (PyVal.list [PyVal.str "postgres", PyVal.str "mysql"]) = PyVal.list engines)
    (h3 : dictGetD parameters "backup_retention_period" (PyVal.int 0) = PyVal.int br)
    (h4 : pyGetD (dictGetD policies "rds" (PyVal.dict [])) "min_backup_days" (PyVal.int 7)
        = PyVal.int mb) :
    (rds_engine_violations parameters (dictGetD policies "rds" (PyVal.dict [])) = []
      ↔ PyVal.str (pyLowerStr e) ∈ engines)
    ∧ (rds_backup_violations parameters (dictGetD policies "rds" (PyVal.dict [])) = []
      ↔ mb ≤ br)
    ∧ ((pyGetD (dictGetD policies "rds" (PyVal.dict [])) "encryption" (PyVal.bool true)).truthy
          = true →
        (rds_encryption_violations parameters (dictGetD policies "rds" (PyVal.dict [])) = []
          ↔ (dictGetD parameters "storage_encrypted" (PyVal.bool false)).truthy = true))
    ∧ ((pyGetD (dictGetD policies "rds" (PyVal.dict [])) "encryption" (PyVal.bool true)).truthy
          = false →
        rds_encryption_violations parameters (dictGetD policies "rds" (PyVal.dict [])) = [])
    ∧ validate_rds_constraints parameters policies
        = rds_engine_violations parameters (dictGetD policies "rds" (PyVal.dict []))
          ++ rds_backup_violations parameters (dictGetD policies "rds" (PyVal.dict []))
          ++ rds_encryption_violations parameters (dictGetD policies "rds" (PyVal.dict [])) := by
  refine ⟨?_, ?_, ?_, ?_, rfl⟩
  · unfold rds_engine_violations
    rw [h2, h1]
    rw [show pyLower (PyVal.str e) = PyVal.str (pyLowerStr e) from rfl]
    rw [← pyInMem_str (pyLowerStr e) engines]
    cases hmem : pyInMem (PyVal.str (pyLowerStr e)) (PyVal.list engines) <;> simp [hmem]
  · unfold rds_backup_violations
    rw [h4, h3]
    by_cases hbr : br < mb <;>
      simp [pyLt, pyToIntVal, hbr] <;>
      omega
  · intro henc
    unfold rds_encryption_violations
    rw [henc]
    cases hse : (dictGetD parameters "storage_encrypted" (PyVal.bool false)).truthy <;>
      simp [hse]
  · intro henc
    unfold rds_encryption_violations
    rw [henc]
    simp

/-- Witness for C6 at concrete inputs. -/
theorem rds_constraints_characterization_witness :
    (rds_engine_violations c6w_parameters (dictGetD c6w_policies "rds" (PyVal.dict [])) = []
      ↔ PyVal.str (pyLowerStr "postgres") ∈ [PyVal.str "postgres", PyVal.str "mysql"])
    ∧ (rds_backup_violations c6w_parameters (dictGetD c6w_policies "rds" (PyVal.dict [])) = []
      ↔ (7 : Int) ≤ 7)
    ∧ ((pyGetD (dictGetD c6w_policies "rds" (PyVal.dict [])) "encryption"
          (PyVal.bool true)).truthy = true →
        (rds_encryption_violations c6w_parameters (dictGetD c6w_policies "rds" (PyVal.dict []))
            = []
          ↔ (dictGetD c6w_parameters "storage_encrypted" (PyVal.bool false)).truthy = true))
    ∧ ((pyGetD (dictGetD c6w_policies "rds" (PyVal.dict [])) "encryption"
          (PyVal.bool true)).truthy = false →
        rds_encryption_violations c6w_parameters (dictGetD c6w_policies "rds" (PyVal.dict []))
          = [])
    ∧ validate_rds_constraints c6w_parameters c6w_policies
        = rds_engine_violations c6w_parameters (dictGetD c6w_policies "rds" (PyVal.dict []))
          ++ rds_backup_violations c6w_parameters (dictGetD c6w_policies "rds" (PyVal.dict []))
          ++ rds_encryption_violations c6w_parameters (dictGetD c6w_policies "rds" (PyVal.dict [])) :=
  rds_constraints_characterization c6w_parameters c6w_policies "postgres"
    [PyVal.str "postgres", PyVal.str "mysql"] 7 7 rfl rfl rfl rfl

/-- C10: an empty or whitespace-only request is rejected up front with
exactly the single-element violation list, before any collaborator
(policy load or completion call) is invoked, whatever those collaborators
would answer. -/
theorem empty_request_rejected (env : ClientEnv) (request : String)
    (h : pyStrip request = "") :
    parse_infrastructure_request env request
      = (Except.error (LLMError.validation_error ["Infrastructure request cannot be empty"]),
         []) := by
  simp [parse_infrastructure_request, h]

/-- Witness for C10: a whitespace-only request against the trivial
environment. -/
theorem empty_request_rejected_witness :
    pyStrip "   " = ""
    ∧ parse_infrastructure_request client_env0 "   "
        = (Except.error (LLMError.validation_error ["Infrastructure request cannot be empty"]),
           []) :=
  ⟨by decide, empty_request_rejected client_env0 "   " (by decide)⟩

/-- C4 evidence: every lifecycle run ends its update sequence in a
terminal status (completed or failed), but an exception outside the
specifically handled kinds is recorded with the "GitHub error" label —
the `except (GitHubError, Exception)` clause catches it first, so the
final "Unexpected error" handler never runs. -/
theorem worker_failure_reaches_terminal_status :
    (∀ (env : WorkerEnv) (environment : Option String),
      ∃ us u, process_provision_request env environment = us ++ [u]
        ∧ (u.status = some RequestStatus.completed ∨ u.status = some RequestStatus.failed))
    ∧ (process_provision_request c4_env Option.none).getLast?.map
        (fun u => (u.status, u.error, u.completed_at_set))
        = some (some RequestStatus.failed, some "GitHub error: boom", true)
    ∧ worker_error_message (WorkerExn.unexpected "boom") = "GitHub error: boom"
    ∧ "GitHub error: boom" ≠ "Unexpected error: boom" := by
  refine ⟨?_, by decide, by decide, by decide⟩
  intro env environment
  unfold process_provision_request
  cases hp : env.parse_result with
  | error e =>
      exact ⟨[parsing_update], failure_update e, rfl, Or.inr rfl⟩
  | ok reqs0 =>
      cases hg : env.generate_result (worker_requirements reqs0 environment) with
      | error e =>
          exact ⟨[parsing_update, generating_update (worker_requirements reqs0 environment)],
            failure_update e, by simp [hg], Or.inr rfl⟩
      | ok terraform =>
          cases hpr : env.pr_result terraform (worker_requirements reqs0 environment) with
          | error e =>
              exact ⟨[parsing_update, generating_update (worker_requirements reqs0 environment),
                creating_pr_update], failure_update e, by simp [hg, hpr], Or.inr rfl⟩
          | ok pr =>
              exact ⟨[parsing_update, generating_update (worker_requirements reqs0 environment),
                creating_pr_update], completed_update pr, by simp [hg, hpr], Or.inl rfl⟩

/-- C1: for every requirements mapping with the five required fields, a
supported resource type, parameters accepted by that type's parameter
validator, and all five templates present, `generate` returns a result
whose files mapping has exactly the keys main.tf, variables.tf,
outputs.tf, provider.tf and backend.tf, whatever the resource type. -/
theorem generate_yields_five_files
    (store : TemplateStore) (org_policies : Option (List (String × PyVal))) (now : String)
    (requirements : List (String × PyVal))
    (hfields : ∀ f ∈ generator_required_fields, dictContains requirements f = true)
    (hsupported : pyInMem (dictGetD requirements "resource_type" PyVal.none)
        (PyVal.list (supported_resource_types.map PyVal.str)) = true)
    (hparams : parameter_validation_func
        (pyAsStr (dictGetD requirements "resource_type" PyVal.none))
        (pyAsDict (dictGetD requirements "parameters" (PyVal.dict []))) = [])
    (hres : ∀ f ∈ resource_template_files,
        store.hasTemplate (pyAsStr (dictGetD requirements "resource_type" PyVal.none) ++ "/" ++ f)
          = true)
    (hcom : ∀ f ∈ common_template_files, store.hasTemplate ("_common/" ++ f) = true) :
    ∃ g, generate store org_policies now requirements = Except.ok g
      ∧ g.files.map Prod.fst
          = ["main.tf", "variables.tf", "outputs.tf", "provider.tf", "backend.tf"] := by
  have hfind : generator_required_fields.find? (fun f => !dictContains requirements f)
      = Option.none := by
    rw [List.find?_eq_none]
    intro x hx
    simp [hfields x hx]
  have hlt : load_templates store (pyAsStr (dictGetD requirements "resource_type" PyVal.none))
      = Except.ok (resource_template_files.map (fun f => (pyReplace f ".j2" "",
            pyAsStr (dictGetD requirements "resource_type" PyVal.none) ++ "/" ++ f))
          ++ common_template_files.map (fun f => (pyReplace f ".j2" "", "_common/" ++ f))) := by
    unfold load_templates
    rw [List.find?_eq_none.mpr fun x hx => by simp [hres x hx]]
    rw [List.find?_eq_none.mpr fun x hx => by simp [hcom x hx]]
  unfold generate
  simp only [hfind, hsupported, hparams, hlt, Bool.not_true, List.isEmpty_nil,
    Bool.false_eq_true, if_false]
  refine ⟨_, rfl, ?_⟩
  simp only [resource_template_files, common_template_files, List.map_cons, List.map_nil,
    List.cons_append, List.nil_append, List.map_append]
  decide

/-- Witness for C1: a complete storage-bucket specification against a
template store where every template exists. -/
theorem generate_yields_five_files_witness :
    ∃ g, generate full_template_store Option.none "t" c1_requirements = Except.ok g
      ∧ g.files.map Prod.fst
          = ["main.tf", "variables.tf", "outputs.tf", "provider.tf", "backend.tf"] :=
  generate_yields_five_files full_template_store Option.none "t" c1_requirements
    (by decide) (by decide) (by decide) (by decide) (by decide)

lemma pyIsInt_iff (v : PyVal) : pyIsInt v = true ↔ ∃ n : Int, v = PyVal.int n := by
  cases v <;> simp [pyIsInt]

lemma validate_node_group_eq_nil_iff (i : Nat) (ng : PyVal)
    (hsz : ∀ f ∈ (["desired_size", "min_size", "max_size"] : List String),
        pyIsIntOpt (pyGet ng f) = true) :
    (validate_node_group i ng = []) ↔ node_group_spec_ok ng = true := by
  by_cases hall : node_group_field_list.all (fun f => pyContains ng f) = true
  · have hcont : ∀ f ∈ node_group_field_list, pyContains ng f = true := by
      simpa [List.all_eq_true] using hall
    have hname : pyContains ng "name" = true := hcont _ (by simp [node_group_field_list])
    have hit : pyContains ng "instance_types" = true := hcont _ (by simp [node_group_field_list])
    have hd : pyContains ng "desired_size" = true := hcont _ (by simp [node_group_field_list])
    have hmn : pyContains ng "min_size" = true := hcont _ (by simp [node_group_field_list])
    have hmx : pyContains ng "max_size" = true := hcont _ (by simp [node_group_field_list])
    obtain ⟨dv, hdv⟩ : ∃ v, pyGet ng "desired_size" = some v := by
      simpa [pyContains, Option.isSome_iff_exists] using hd
    obtain ⟨mnv, hmnv⟩ : ∃ v, pyGet ng "min_size" = some v := by
      simpa [pyContains, Option.isSome_iff_exists] using hmn
    obtain ⟨mxv, hmxv⟩ : ∃ v, pyGet ng "max_size" = some v := by
      simpa [pyContains, Option.isSome_iff_exists] using hmx
    obtain ⟨itv, hitv⟩ : ∃ v, pyGet ng "instance_types" = some v := by
      simpa [pyContains, Option.isSome_iff_exists] using hit
    obtain ⟨dn, rfl⟩ : ∃ n : Int, dv = PyVal.int n := by
      refine (pyIsInt_iff dv).mp ?_
      have := hsz "desired_size" (by simp)
      rwa [hdv, pyIsIntOpt] at this
    obtain ⟨mn, rfl⟩ : ∃ n : Int, mnv = PyVal.int n := by
      refine (pyIsInt_iff mnv).mp ?_
      have := hsz "min_size" (by simp)
      rwa [hmnv, pyIsIntOpt] at this
    obtain ⟨mx, rfl⟩ : ∃ n : Int, mxv = PyVal.int n := by
      refine (pyIsInt_iff mxv).mp ?_
      have := hsz "max_size" (by simp)
      rwa [hmxv, pyIsIntOpt] at this
    have hfilter : node_group_field_list.filter (fun f => !pyContains ng f) = [] := by
      simp [node_group_field_list, hname, hit, hd, hmn, hmx]
    simp only [validate_node_group, node_group_spec_ok, hfilter, List.map_nil,
      List.nil_append, hd, hmn, hmx, hit, hall, pyGetD, hdv, hmnv, hmxv, hitv,
      Option.getD_some, Bool.and_self, if_true, Bool.true_and]
    by_cases h1 : dn < mn <;> by_cases h2 : mx < dn <;> cases hl : pyIsList itv <;>
      simp [pyLt, pyGt, pyToIntVal, h1, h2, hl, List.append_eq_nil] <;> omega
  · have hallf : node_group_field_list.all (fun f => pyContains ng f) = false := by
      simpa using hall
    obtain ⟨f, hf, hnf⟩ := List.all_eq_false.mp hallf
    have hne : node_group_field_list.filter (fun f => !pyContains ng f) ≠ [] :=
      List.ne_nil_of_mem (List.mem_filter.mpr ⟨hf, by simp [hnf]⟩)
    have hv : validate_node_group i ng ≠ [] := by
      intro h
      simp only [validate_node_group, List.append_eq_nil, List.map_eq_nil_iff] at h
      exact hne h.1.1
    have hs : node_group_spec_ok ng = false := by
      simp [node_group_spec_ok, hallf]
    simp [hv, hs]

lemma node_group_errors_eq_nil_iff (gs : List PyVal) (i : Nat)
    (hsz : ∀ ng ∈ gs, ∀ f ∈ (["desired_size", "min_size", "max_size"] : List String),
        pyIsIntOpt (pyGet ng f) = true) :
    (node_group_errors i gs = []) ↔ gs.all node_group_spec_ok = true := by
  induction gs generalizing i with
  | nil => simp [node_group_errors]
  | cons ng rest ih =>
      have h1 := validate_node_group_eq_nil_iff i ng (hsz ng (by simp))
      have h2 := ih (i + 1) (fun g hg f hf => hsz g (List.mem_cons_of_mem _ hg) f hf)
      simp [node_group_errors, List.append_eq_nil, h1, h2]

/-- C7: the managed-cluster parameter check accepts a parameters mapping
exactly when kubernetes_version and private_endpoint are present and
node_groups is a non-empty list whose groups each carry name,
instance_types (a list), desired_size, min_size and max_size with
desired_size in [min_size, max_size]; the group with sizes 5/3/10 passes
and the one with desired 2 below minimum 3 fails with the out-of-range
error naming the group. -/
theorem eks_parameter_check (params : List (String × PyVal)) (gs : List PyVal)
    (hng : dictGet params "node_groups" = Option.none
        ∨ dictGet params "node_groups" = some (PyVal.list gs))
    (hsz : ∀ ng ∈ gs, ∀ f ∈ (["desired_size", "min_size", "max_size"] : List String),
        pyIsIntOpt (pyGet ng f) = true) :
    (validate_eks_parameters params = [] ↔ eks_parameters_spec params = true)
    ∧ validate_eks_parameters eks_good_params = []
    ∧ validate_eks_parameters eks_bad_params
        = ["Node group 0 ('general'): desired_size (2) cannot be less than min_size (3)"] := by
  refine ⟨?_, by decide, by decide⟩
  rcases hng with h | h
  · have hc : dictContains params "node_groups" = false := by simp [dictContains, h]
    have hv : validate_eks_parameters params ≠ [] := by
      simp only [validate_eks_parameters]
      simp [hc, List.append_eq_nil]
    have hs : eks_parameters_spec params = false := by
      simp [eks_parameters_spec, h]
    simp [hv, hs]
  · have hc : dictContains params "node_groups" = true := by simp [dictContains, h]
    have hgd : dictGetD params "node_groups" PyVal.none = PyVal.list gs := by
      simp [dictGetD, h]
    rcases eq_or_ne gs [] with rfl | hne
    · have hv : validate_eks_parameters params ≠ [] := by
        simp only [validate_eks_parameters]
        simp [hc, hgd, PyVal.truthy, List.append_eq_nil]
      have hs : eks_parameters_spec params = false := by
        simp [eks_parameters_spec, h]
      simp [hv, hs]
    · have htr : (PyVal.list gs).truthy = true := by simp [PyVal.truthy, hne]
      have hiff := node_group_errors_eq_nil_iff gs 0 hsz
      simp only [validate_eks_parameters, eks_parameters_spec, hc, hgd, h, htr, pyAsList,
        Bool.not_true, List.append_eq_nil]
      cases hkv : dictContains params "kubernetes_version" <;>
        cases hpe : dictContains params "private_endpoint" <;>
          simp [hkv, hpe, hiff, hne]

/-- Witness for C7: the complete good parameters instantiate the
characterization. -/
theorem eks_parameter_check_witness :
    (validate_eks_parameters eks_good_params = []
      ↔ eks_parameters_spec eks_good_params = true)
    ∧ validate_eks_parameters eks_good_params = []
    ∧ validate_eks_parameters eks_bad_params
        = ["Node group 0 ('general'): desired_size (2) cannot be less than min_size (3)"] :=
  eks_parameter_check eks_good_params
    [PyVal.dict [("name", PyVal.str "general"),
      ("instance_types", PyVal.list [PyVal.str "t3.large"]),
      ("desired_size", PyVal.int 5), ("min_size", PyVal.int 3), ("max_size", PyVal.int 10)]]
    (Or.inr rfl) (by decide)

end InfraLLM

